import Mathlib

/-!
Verification of the backup-rs directory mirroring tool (src/main.rs).

The program is embedded shallowly:

* The filesystem is a finite association list from absolute paths
  (component lists, mirroring the program's string joins with "/") to nodes.
  A node is a directory, a regular file (size, mtime), a symbolic link
  carrying its stored target path, or an `inaccessible` entry: an entry that
  its parent directory still lists but whose stat/lstat fails (it vanished
  between listing and inspection, or permissions forbid inspecting it).
* Symlink targets are modelled as absolute component paths; path resolution
  follows intermediate and final links with a loop-bound fuel, like the
  kernel's SYMLOOP_MAX.
* Each Rust `fs` call used by the program is modelled by one definition
  (`readDir`, `pathExists`, `isDir`, `read_link`, `createDir`,
  `removeFileOp`, `removeDirAllOp`, `createSymlinkOp`, `copyOp`, `size`,
  `modified_time`, `is_symlink`), returning `Option` where the call can fail.
* The two passes `remove_removed` and `backup`, the shared `copy_file`
  primitive and the relevant part of `main` (`mainRun`) are translated
  line by line.  A failed `.unwrap()` is modelled by setting the `panicked`
  flag of the run state, which aborts all further work, as a Rust panic
  aborts the process.  `println!` output is collected in `log` (only the
  operation lines of the two passes; `main`'s banner lines are omitted).
* `fs::copy` stamps the written file with the wall-clock time of the run,
  passed in as `now`.
* Directory recursion is bounded by an explicit `fuel`; exhausted fuel is
  modelled as a crash.  All concrete runs below use ample fuel.
* Not modelled: non-UTF-8 file names (the `to_str` checks; all names here
  are `String`s) and concurrent external mutation.
-/

/-- Filesystem node as observed by the program's metadata queries. -/
inductive Node where
  | dir : Node
  | file (sz : Nat) (mtime : Nat) : Node
  | symlink (target : List String) : Node
  | inaccessible : Node
deriving DecidableEq

/-- A filesystem: association list from absolute paths to nodes. -/
abbrev FS := List (List String × Node)

/-- Look up the node stored at exactly the given path (no symlink following). -/
def FS.find : FS → List String → Option Node
  | [], _ => none
  | e :: rest, p => if e.1 = p then some e.2 else FS.find rest p

/-- Remove the entry stored at exactly the given path. -/
def FS.eraseKey : FS → List String → FS
  | [], _ => []
  | e :: rest, p => if e.1 = p then FS.eraseKey rest p else e :: FS.eraseKey rest p

/-- `isPref p q` holds when `p` is a prefix of `q` (used for recursive deletion). -/
def isPref : List String → List String → Bool
  | [], _ => true
  | _ :: _, [] => false
  | a :: as, b :: bs => a = b && isPref as bs

/-- Remove the entry at the given path together with everything below it. -/
def FS.eraseTree : FS → List String → FS
  | [], _ => []
  | e :: rest, p => if isPref p e.1 then FS.eraseTree rest p else e :: FS.eraseTree rest p

/-- Store a node at a path, replacing any previous entry. -/
def FS.insert (fs : FS) (p : List String) (n : Node) : FS :=
  (p, n) :: FS.eraseKey fs p

/-- Resolve a path, following symbolic links in intermediate and final
components.  `acc` is the already-resolved (real, directory) prefix.  Symlink
targets are absolute, so following one restarts resolution at the root with
the remaining components appended.  The fuel bounds symlink loops; running
out behaves like the OS's ELOOP (resolution fails). -/
def resPath (fs : FS) : Nat → List String → List String → Option (List String)
  | 0, _, _ => none
  | _ + 1, acc, [] => some acc
  | fuel + 1, acc, c :: rest =>
    match FS.find fs (acc ++ [c]) with
    | some Node.dir => resPath fs fuel (acc ++ [c]) rest
    | some (Node.symlink t) => resPath fs fuel [] (t ++ rest)
    | some (Node.file _ _) => if rest = [] then some (acc ++ [c]) else none
    | some Node.inaccessible => none
    | none => none

/-- Resolve a path to its real location, following symlinks (like `stat`). -/
def resolve (fs : FS) (p : List String) : Option (List String) :=
  resPath fs 64 [] p

/-- The node a path refers to after following symlinks. -/
def resolveNode (fs : FS) (p : List String) : Option Node :=
  match resolve fs p with
  | none => none
  | some rp => FS.find fs rp

/-- Model of `Path::exists()`: the symlink-following stat succeeds. -/
def pathExists (fs : FS) (p : List String) : Bool :=
  match resolve fs p with
  | none => false
  | some _ => true

/-- Model of `Path::is_dir()`: follows symlinks, true only for directories. -/
def isDir (fs : FS) (p : List String) : Bool :=
  match resolveNode fs p with
  | some Node.dir => true
  | _ => false

/-- Model of `lstat`: resolve the parent (following its symlinks), then look
at the final component without following it. -/
def lstatNode (fs : FS) (p : List String) : Option Node :=
  match p.getLast? with
  | none => none
  | some n =>
    match resolve fs p.dropLast with
    | some pp => FS.find fs (pp ++ [n])
    | none => none

/-- `is_symlink` from src/main.rs lines 22-31: classify via
`fs::symlink_metadata`; `0` = symlink, `1` = not a symlink, `2` = the
metadata call failed. -/
def is_symlink (fs : FS) (p : List String) : Nat :=
  match lstatNode fs p with
  | some (Node.symlink _) => 0
  | some Node.inaccessible => 2
  | some _ => 1
  | none => 2

/-- Model of `fs::read_link`: the stored target of a symlink, never followed. -/
def read_link (fs : FS) (p : List String) : Option (List String) :=
  match lstatNode fs p with
  | some (Node.symlink t) => some t
  | _ => none

/-- Size reported for an opened directory (`File::open` on a directory
succeeds on Linux; the reported `st_size` is filesystem-dependent and fixed
here). -/
def dirSize : Nat := 4096

/-- `size` from src/main.rs lines 7-11: `File::open` the path (following
symlinks) and read the metadata length; `none` models the panicking
`.unwrap()` when the open fails. -/
def size (fs : FS) (p : List String) : Option Nat :=
  match resolveNode fs p with
  | some (Node.file sz _) => some sz
  | some Node.dir => some dirSize
  | _ => none

/-- `modified_time` from src/main.rs lines 15-18: `fs::metadata` (following
symlinks); directory mtimes are not tracked by the model. -/
def modified_time (fs : FS) (p : List String) : Option Nat :=
  match resolveNode fs p with
  | some (Node.file _ mt) => some mt
  | some Node.dir => some 0
  | _ => none

/-- Names of the direct children of the real directory path `rp`, in
association-list order (the model's directory listing order). -/
def childNames (fs : FS) (rp : List String) : List String :=
  fs.filterMap (fun e =>
    if e.1.dropLast = rp ∧ e.1 ≠ [] then e.1.getLast? else none)

/-- Model of `fs::read_dir`: resolve the path, require a directory, and list
its children. -/
def readDir (fs : FS) (p : List String) : Option (List String) :=
  match resolve fs p with
  | none => none
  | some rp =>
    match FS.find fs rp with
    | some Node.dir => some (childNames fs rp)
    | _ => none

/-- True when `rp` is a real existing directory path; the empty path is the
filesystem root, which always exists as a directory. -/
def parentIsDir (fs : FS) (rp : List String) : Bool :=
  match rp with
  | [] => true
  | _ =>
    match FS.find fs rp with
    | some Node.dir => true
    | _ => false

/-- Model of `fs::create_dir`: the parent must resolve to a directory and
the final component must be free (mkdir does not follow a final symlink). -/
def createDir (fs : FS) (p : List String) : Option FS :=
  match p.getLast? with
  | none => none
  | some n =>
    match resolve fs p.dropLast with
    | some pp =>
      if parentIsDir fs pp then
        match FS.find fs (pp ++ [n]) with
        | none => some (FS.insert fs (pp ++ [n]) Node.dir)
        | some _ => none
      else none
    | none => none

/-- Model of `fs::remove_file` (unlink): removes a regular file or a symlink,
fails on a directory.  An `inaccessible` entry models one that vanished after
being listed, so removing it fails too. -/
def removeFileOp (fs : FS) (p : List String) : Option FS :=
  match p.getLast? with
  | none => none
  | some n =>
    match resolve fs p.dropLast with
    | some pp =>
      match FS.find fs (pp ++ [n]) with
      | some (Node.file _ _) => some (FS.eraseKey fs (pp ++ [n]))
      | some (Node.symlink _) => some (FS.eraseKey fs (pp ++ [n]))
      | _ => none
    | none => none

/-- Model of `fs::remove_dir_all`: on a symlink it removes the link itself
(documented behavior); on a directory it removes the whole subtree; it fails
on anything else. -/
def removeDirAllOp (fs : FS) (p : List String) : Option FS :=
  match p.getLast? with
  | none => none
  | some n =>
    match resolve fs p.dropLast with
    | some pp =>
      match FS.find fs (pp ++ [n]) with
      | some (Node.symlink _) => some (FS.eraseKey fs (pp ++ [n]))
      | some Node.dir => some (FS.eraseTree fs (pp ++ [n]))
      | _ => none
    | none => none

/-- Model of `std::os::unix::fs::symlink(target, p)`: fails with EEXIST when
anything already sits at `p`; it never deletes an existing entry. -/
def createSymlinkOp (fs : FS) (target : List String) (p : List String) : Option FS :=
  match p.getLast? with
  | none => none
  | some n =>
    match resolve fs p.dropLast with
    | some pp =>
      if parentIsDir fs pp then
        match FS.find fs (pp ++ [n]) with
        | none => some (FS.insert fs (pp ++ [n]) (Node.symlink target))
        | some _ => none
      else none
    | none => none

/-- Model of `fs::copy src dst`: the source must resolve to a regular file;
the destination is opened for writing following symlinks, overwriting an
existing regular file or creating a fresh one when the final component is
free and the parent is a real directory.  The written file's mtime is the
wall-clock time `now` of the run (`fs::copy` does not preserve mtimes). -/
def copyOp (fs : FS) (now : Nat) (src dst : List String) : Option FS :=
  match resolveNode fs src with
  | some (Node.file sz _) =>
    match resolve fs dst with
    | some rq =>
      match FS.find fs rq with
      | some (Node.file _ _) => some (FS.insert fs rq (Node.file sz now))
      | _ => none
    | none =>
      match dst.getLast? with
      | none => none
      | some n =>
        match resolve fs dst.dropLast with
        | some pp =>
          if parentIsDir fs pp then
            match FS.find fs (pp ++ [n]) with
            | none => some (FS.insert fs (pp ++ [n]) (Node.file sz now))
            | some _ => none
          else none
        | none => none
  | _ => none

/-- Path separator, used to render paths in log lines exactly as the
program's string joins do. -/
def slash : String := "/"

/-- Render a component path the way the program prints it. -/
def pathStr (p : List String) : String :=
  String.intercalate slash p

/-- State of a run: the filesystem, the collected log lines, and whether an
`.unwrap()` has panicked (a panic aborts everything that follows). -/
structure RunSt where
  fs : FS
  log : List String
  panicked : Bool
deriving DecidableEq

/-- Append a log line (a `println!`). -/
def RunSt.out (s : RunSt) (line : String) : RunSt :=
  { s with log := s.log ++ [line] }

/-- A failed `.unwrap()`: the process panics. -/
def RunSt.crash (s : RunSt) : RunSt :=
  { s with panicked := true }

/-- The non-directory branch of `remove_removed` (src/main.rs lines 54-81):
if the destination entry is classified a symlink, delete it when reading the
link target at the equivalent source path fails; otherwise (including the
`is_symlink` error code 2) delete it when the equivalent source path does not
exist.  Deletions log first and mutate only when dry-run is disabled. -/
def rrNonDir (source destination : List String) (name : String) (dry : Bool) (s : RunSt) : RunSt :=
  if is_symlink s.fs (destination ++ [name]) = 0 then
    match read_link s.fs (source ++ [name]) with
    | some _ => s
    | none =>
      let s := s.out ("Removing symlink: " ++ pathStr (destination ++ [name]))
      if ¬ dry then
        match removeDirAllOp s.fs (destination ++ [name]) with
        | some fs2 => { s with fs := fs2 }
        | none => s.crash
      else s
  else
    if ¬ pathExists s.fs (source ++ [name]) then
      let s := s.out ("Removing file: " ++ pathStr (destination ++ [name]))
      if ¬ dry then
        match removeFileOp s.fs (destination ++ [name]) with
        | some fs2 => { s with fs := fs2 }
        | none => s.crash
      else s
    else s

/-- `remove_removed` from src/main.rs lines 36-83: walk the destination
directory (the `read_dir(destination).unwrap()` panics when the listing
fails); a subdirectory with no equivalent source path is removed recursively,
an existing one is recursed into; non-directories go through `rrNonDir`.
The explicit fuel bounds the recursion depth. -/
def remove_removed : Nat → List String → List String → Bool → RunSt → RunSt
  | 0, _, _, _, s => s.crash
  | fuel + 1, source, destination, dry, s =>
    match readDir s.fs destination with
    | none => s.crash
    | some names =>
      names.foldl
        (fun s name =>
          if s.panicked then s
          else
            if isDir s.fs (destination ++ [name]) then
              if ¬ pathExists s.fs (source ++ [name]) then
                let s := s.out ("Removing directory: " ++ pathStr (destination ++ [name]))
                if ¬ dry then
                  match removeDirAllOp s.fs (destination ++ [name]) with
                  | some fs2 => { s with fs := fs2 }
                  | none => s.crash
                else s
              else remove_removed fuel (source ++ [name]) (destination ++ [name]) dry s
            else rrNonDir source destination name dry s)
        s

/-- `copy_file` from src/main.rs lines 86-100: always log the copy line;
when dry-run is disabled, recreate a symlink source as a symlink at the
destination (reading the source's stored target) and copy a regular source
with `fs::copy`; each failing call is an `.unwrap()` panic. -/
def copy_file (now : Nat) (source destination : List String) (dry : Bool) (s : RunSt) : RunSt :=
  let s := s.out ("Copying " ++ pathStr source ++ " to " ++ pathStr destination)
  if ¬ dry then
    if is_symlink s.fs source = 0 then
      match read_link s.fs source with
      | none => s.crash
      | some t =>
        match createSymlinkOp s.fs t destination with
        | some fs2 => { s with fs := fs2 }
        | none => s.crash
    else
      match copyOp s.fs now source destination with
      | some fs2 => { s with fs := fs2 }
      | none => s.crash
  else s

/-- The non-directory branch of `backup` (src/main.rs lines 129-165): a
symlink source is copied when the destination is not a symlink with the same
stored target; a non-symlink source with an existing destination is copied
exactly when the sizes differ or the source's mtime is strictly newer; a
missing destination is always copied.  The failing metadata reads
(`size`, `modified_time`, `read_link`) are `.unwrap()` panics. -/
def buNonDir (now : Nat) (source destination : List String) (name : String) (dry : Bool) (s : RunSt) : RunSt :=
  if is_symlink s.fs (source ++ [name]) = 0 then
    if is_symlink s.fs (destination ++ [name]) = 0 then
      match read_link s.fs (source ++ [name]), read_link s.fs (destination ++ [name]) with
      | some st, some dt =>
        if st ≠ dt then copy_file now (source ++ [name]) (destination ++ [name]) dry s else s
      | _, _ => s.crash
    else copy_file now (source ++ [name]) (destination ++ [name]) dry s
  else
    if pathExists s.fs (destination ++ [name]) then
      match size s.fs (source ++ [name]), size s.fs (destination ++ [name]) with
      | some ss, some ds =>
        if ss ≠ ds then copy_file now (source ++ [name]) (destination ++ [name]) dry s
        else
          match modified_time s.fs (source ++ [name]), modified_time s.fs (destination ++ [name]) with
          | some sm, some dm =>
            if sm > dm then copy_file now (source ++ [name]) (destination ++ [name]) dry s else s
          | _, _ => s.crash
      | _, _ => s.crash
    else copy_file now (source ++ [name]) (destination ++ [name]) dry s

/-- `backup` from src/main.rs lines 104-167: a source that cannot be listed
is a silent return; a directory child gets its destination directory created
when missing (unlogged, gated by dry-run) and is then recursed into
unconditionally; non-directories go through `buNonDir`. -/
def backup (now : Nat) : Nat → List String → List String → Bool → RunSt → RunSt
  | 0, _, _, _, s => s.crash
  | fuel + 1, source, destination, dry, s =>
    match readDir s.fs source with
    | none => s
    | some names =>
      names.foldl
        (fun s name =>
          if s.panicked then s
          else
            if isDir s.fs (source ++ [name]) then
              let s :=
                if ¬ pathExists s.fs (destination ++ [name]) then
                  if ¬ dry then
                    match createDir s.fs (destination ++ [name]) with
                    | some fs2 => { s with fs := fs2 }
                    | none => s.crash
                  else s
                else s
              if s.panicked then s
              else backup now fuel (source ++ [name]) (destination ++ [name]) dry s
            else buNonDir now source destination name dry s)
        s

/-- The core of `main` (src/main.rs lines 230-248), after argument parsing:
when dry-run is disabled, create the destination directory if it does not
exist; then run the prune pass and, if it did not panic, the mirror pass. -/
def mainRun (now fuel : Nat) (source destination : List String) (dry : Bool) (fs : FS) : RunSt :=
  let s0 : RunSt := { fs := fs, log := [], panicked := false }
  let s1 :=
    if ¬ dry then
      if ¬ pathExists s0.fs destination then
        match createDir s0.fs destination with
        | some fs2 => { s0 with fs := fs2 }
        | none => s0.crash
      else s0
    else s0
  if s1.panicked then s1
  else
    let s2 := remove_removed fuel source destination dry s1
    if s2.panicked then s2
    else backup now fuel source destination dry s2

theorem crash_self_of_panicked (s : RunSt) (h : s.panicked = true) : s.crash = s := by
  cases s
  simp_all [RunSt.crash]

theorem foldl_fs_eq (f : RunSt → String → RunSt) (h : ∀ s n, (f s n).fs = s.fs) :
    ∀ (l : List String) (s : RunSt), (l.foldl f s).fs = s.fs := by
  intro l
  induction l with
  | nil => intro s; rfl
  | cons a t ih => intro s; rw [List.foldl_cons, ih, h]

theorem foldl_absorb (f : RunSt → String → RunSt)
    (h : ∀ s n, s.panicked = true → f s n = s) :
    ∀ (l : List String) (s : RunSt), s.panicked = true → l.foldl f s = s := by
  intro l
  induction l with
  | nil => intro s _; rfl
  | cons a t ih => intro s hs; rw [List.foldl_cons, h s a hs]; exact ih s hs

theorem copy_file_dry_fs (now : Nat) (src dst : List String) (s : RunSt) :
    (copy_file now src dst true s).fs = s.fs := by
  unfold copy_file
  repeat' split
  all_goals simp_all [RunSt.out, RunSt.crash]

theorem copy_file_log (now : Nat) (src dst : List String) (dry : Bool) (s : RunSt) :
    (copy_file now src dst dry s).log
      = s.log ++ [("Copying " ++ pathStr src ++ " to " ++ pathStr dst)] := by
  unfold copy_file
  simp only [RunSt.out]
  repeat' split
  all_goals simp_all [RunSt.crash]

theorem rrNonDir_dry_fs (source destination : List String) (name : String) (s : RunSt) :
    (rrNonDir source destination name true s).fs = s.fs := by
  unfold rrNonDir
  simp only [RunSt.out]
  repeat' split
  all_goals simp_all [RunSt.crash]

theorem buNonDir_dry_fs (now : Nat) (source destination : List String) (name : String)
    (s : RunSt) : (buNonDir now source destination name true s).fs = s.fs := by
  unfold buNonDir
  repeat' split
  all_goals simp_all [copy_file_dry_fs, RunSt.crash]

theorem remove_removed_dry_fs :
    ∀ (fuel : Nat) (source destination : List String) (s : RunSt),
      (remove_removed fuel source destination true s).fs = s.fs := by
  intro fuel
  induction fuel with
  | zero => intro source destination s; rfl
  | succ f ih =>
    intro source destination s
    rw [remove_removed]
    cases hd : readDir s.fs destination with
    | none => rfl
    | some names =>
      apply foldl_fs_eq
      intro s2 name
      dsimp only
      split
      · rfl
      · split
        · split
          · simp [RunSt.out]
          · exact ih _ _ _
        · exact rrNonDir_dry_fs _ _ _ _

theorem backup_dry_fs (now : Nat) :
    ∀ (fuel : Nat) (source destination : List String) (s : RunSt),
      (backup now fuel source destination true s).fs = s.fs := by
  intro fuel
  induction fuel with
  | zero => intro source destination s; rfl
  | succ f ih =>
    intro source destination s
    rw [backup]
    cases hd : readDir s.fs source with
    | none => rfl
    | some names =>
      apply foldl_fs_eq
      intro s2 name
      dsimp only
      split
      · rfl
      · split
        · rename_i hp hdir
          simp only [not_true, ite_self]
          simp [hp, ih]
        · exact buNonDir_dry_fs _ _ _ _ _

theorem remove_removed_absorb (fuel : Nat) (source destination : List String) (dry : Bool)
    (s : RunSt) (h : s.panicked = true) :
    remove_removed fuel source destination dry s = s := by
  cases fuel with
  | zero => exact crash_self_of_panicked s h
  | succ f =>
    rw [remove_removed]
    cases hd : readDir s.fs destination with
    | none => exact crash_self_of_panicked s h
    | some names =>
      apply foldl_absorb
      · intro s2 n hp
        simp [hp]
      · exact h

theorem backup_absorb (now fuel : Nat) (source destination : List String) (dry : Bool)
    (s : RunSt) (h : s.panicked = true) :
    backup now fuel source destination dry s = s := by
  cases fuel with
  | zero => exact crash_self_of_panicked s h
  | succ f =>
    rw [backup]
    cases hd : readDir s.fs source with
    | none => rfl
    | some names =>
      apply foldl_absorb
      · intro s2 n hp
        simp [hp]
      · exact h

/-- C1: in the mirror pass, for a source entry the symlink inspector reports
as a non-symlink which resolves to a regular file of size `ss` and mtime
`sm`, and a destination entry at the same relative path which resolves to a
regular file of size `ds` and mtime `dm`, `buNonDir` (the per-entry handler
of `backup`, src/main.rs lines 152-164) copies the file exactly when the
sizes differ, or the sizes are equal and the source's mtime is strictly
greater; otherwise it performs no action at all. -/
theorem c1_regular_file_freshness
    (now : Nat) (source destination : List String) (name : String) (dry : Bool)
    (s : RunSt) (ss sm ds dm : Nat)
    (h1 : is_symlink s.fs (source ++ [name]) = 1)
    (h2 : resolveNode s.fs (source ++ [name]) = some (Node.file ss sm))
    (h3 : resolveNode s.fs (destination ++ [name]) = some (Node.file ds dm)) :
    ((ss ≠ ds ∨ (ss = ds ∧ dm < sm)) →
        buNonDir now source destination name dry s
          = copy_file now (source ++ [name]) (destination ++ [name]) dry s)
    ∧ (¬ (ss ≠ ds ∨ (ss = ds ∧ dm < sm)) →
        buNonDir now source destination name dry s = s) := by
  have hex : pathExists s.fs (destination ++ [name]) = true := by
    unfold resolveNode at h3
    unfold pathExists
    cases hres : resolve s.fs (destination ++ [name]) with
    | none => rw [hres] at h3; cases h3
    | some rp => rfl
  have hsz1 : size s.fs (source ++ [name]) = some ss := by
    unfold size; rw [h2]
  have hsz2 : size s.fs (destination ++ [name]) = some ds := by
    unfold size; rw [h3]
  have hmt1 : modified_time s.fs (source ++ [name]) = some sm := by
    unfold modified_time; rw [h2]
  have hmt2 : modified_time s.fs (destination ++ [name]) = some dm := by
    unfold modified_time; rw [h3]
  unfold buNonDir
  rw [h1, hex]
  simp only [hsz1, hsz2, hmt1, hmt2]
  constructor
  · intro hc
    rcases hc with hne | ⟨heq, hlt⟩
    · simp [hne]
    · simp [heq, hlt]
  · intro hc
    push_neg at hc
    obtain ⟨heq, hnl⟩ := hc
    simp [heq, hnl heq]

/-- Witness for C1 at a concrete filesystem: source file of size 5 and
mtime 100, destination file of size 5 and mtime 50, so the copy fires. -/
theorem c1_witness :
    is_symlink
        (([(["s"], Node.dir), (["d"], Node.dir), (["s","a"], Node.file 5 100),
          (["d","a"], Node.file 5 50)] : FS)) (["s"] ++ ["a"]) = 1
    ∧ buNonDir 9 ["s"] ["d"] "a" false
          { fs := [(["s"], Node.dir), (["d"], Node.dir), (["s","a"], Node.file 5 100),
                   (["d","a"], Node.file 5 50)], log := [], panicked := false }
        = copy_file 9 (["s"] ++ ["a"]) (["d"] ++ ["a"]) false
            { fs := [(["s"], Node.dir), (["d"], Node.dir), (["s","a"], Node.file 5 100),
                     (["d","a"], Node.file 5 50)], log := [], panicked := false } := by
  constructor
  · decide
  · exact (c1_regular_file_freshness 9 ["s"] ["d"] "a" false
      { fs := [(["s"], Node.dir), (["d"], Node.dir), (["s","a"], Node.file 5 100),
               (["d","a"], Node.file 5 50)], log := [], panicked := false }
      5 100 5 50 (by decide) (by decide) (by decide)).1
      (Or.inr (And.intro rfl (by decide)))

/-- A source tree with one fresh subdirectory, empty destination: the real
run creates the destination directory without logging anything. -/
def fsC2a : FS := [(["s"], Node.dir), (["d"], Node.dir), (["s","sub"], Node.dir)]

/-- A destination symlink `d/x -> d/t` where the source has a regular file
at `x`: the prune pass logs the symlink removal in both modes, but only the
real run then sees the destination gone and logs a copy. -/
def fsC2b : FS :=
  [(["s"], Node.dir), (["d"], Node.dir),
   (["s","x"], Node.file 5 100), (["s","t"], Node.file 5 200),
   (["d","t"], Node.file 5 200), (["d","x"], Node.symlink ["d","t"])]

/-- C2 (amended): deletion and copy operations always emit their log line
(`copy_file` logs unconditionally, before any mutation), and a dry run
performs no filesystem mutation whatsoever (`copy_file` and the whole
`mainRun` leave the tree unchanged); however, directory creation never
emits a log line, and a dry run's logged sequence can differ from a real
run's, because dry-run decisions observe the unmutated destination. -/
theorem c2_dry_run_gate (now fuel : Nat) (source destination src dst : List String)
    (dry : Bool) (fs : FS) (s : RunSt) :
    (copy_file now src dst dry s).log
        = s.log ++ [("Copying " ++ pathStr src ++ " to " ++ pathStr dst)]
    ∧ (copy_file now src dst true s).fs = s.fs
    ∧ (mainRun now fuel source destination true fs).fs = fs := by
  refine ⟨copy_file_log now src dst dry s, copy_file_dry_fs now src dst s, ?_⟩
  unfold mainRun
  simp only [not_true, if_neg, ite_false, ite_self]
  split
  · rfl
  · split
    · exact remove_removed_dry_fs fuel source destination _
    · rw [backup_dry_fs, remove_removed_dry_fs]

/-- C2 counterexample: (a) on `fsC2a` the real run mutates the destination
(creates `d/sub`) while emitting no log line at all, so "every mutating
operation's log line is always emitted" fails for directory creation; (b) on
`fsC2b` the dry run and the real run emit different log sequences. -/
theorem c2_counterexample :
    ((mainRun 9 4 ["s"] ["d"] false fsC2a).log = []
      ∧ FS.find (mainRun 9 4 ["s"] ["d"] false fsC2a).fs ["d","sub"] = some Node.dir)
    ∧ (mainRun 9 4 ["s"] ["d"] true fsC2b).log
        ≠ (mainRun 9 4 ["s"] ["d"] false fsC2b).log := by
  decide

/-- Source and destination both hold a symlink at `l`, with different stored
targets. -/
def fsC3 : FS :=
  [(["s"], Node.dir), (["d"], Node.dir),
   (["s","l"], Node.symlink ["t1"]), (["d","l"], Node.symlink ["t2"])]

/-- C3 (code bug): when source and destination are both symlinks with
different stored targets, the code (src/main.rs line 146) calls `copy_file`,
which never deletes the existing destination entry; its
`std::os::unix::fs::symlink` therefore fails with EEXIST and the `.unwrap()`
panics.  On `fsC3` the run logs the copy line, panics, and leaves the old
destination symlink in place — contradicting the code's own comment
("overwrite the destination symlink") and the spec's delete+recreate. -/
theorem c3_symlink_overwrite_panics :
    (mainRun 0 4 ["s"] ["d"] false fsC3).panicked = true
    ∧ FS.find (mainRun 0 4 ["s"] ["d"] false fsC3).fs ["d","l"]
        = some (Node.symlink ["t2"])
    ∧ (mainRun 0 4 ["s"] ["d"] false fsC3).log = ["Copying s/l to d/l"] := by
  decide

/-- A source symlink `link0` whose target is the existing source directory
`dir0` (which contains a regular file `f`). -/
def fsC4 : FS :=
  [(["s"], Node.dir), (["d"], Node.dir), (["s","dir0"], Node.dir),
   (["s","dir0","f"], Node.file 3 7), (["s","link0"], Node.symlink ["s","dir0"])]

/-- C4 counterexample: on `fsC4` the run completes without panicking, yet the
source symlink `link0` is mirrored as a real directory (because
`Path::is_dir()` at src/main.rs line 117 follows symlinks), and the bytes of
the referent's file are copied into it (`d/link0/f` appears as a regular
file) — so after a successful non-dry run the destination does not hold a
symlink at `link0`, and referent bytes were copied. -/
theorem c4_counterexample :
    (mainRun 42 5 ["s"] ["d"] false fsC4).panicked = false
    ∧ FS.find (mainRun 42 5 ["s"] ["d"] false fsC4).fs ["d","link0"] = some Node.dir
    ∧ FS.find (mainRun 42 5 ["s"] ["d"] false fsC4).fs ["d","link0","f"]
        = some (Node.file 3 42) := by
  decide

/-- A source holding a single dangling symlink `link -> tgt`; destination
empty. -/
def fsC4b : FS :=
  [(["s"], Node.dir), (["d"], Node.dir), (["s","link"], Node.symlink ["tgt"])]

theorem FS.find_eraseKey (fs : FS) (p q : List String) :
    FS.find (FS.eraseKey fs p) q = if q = p then none else FS.find fs q := by
  induction fs with
  | nil => simp [FS.eraseKey, FS.find]
  | cons e rest ih =>
    by_cases hq : q = p
    · subst hq
      by_cases he : e.1 = q <;> simp [FS.eraseKey, FS.find, he, ih]
    · have hne : ¬ p = q := fun hh => hq hh.symm
      by_cases he : e.1 = p <;> simp [FS.eraseKey, FS.find, he, hq, hne, ih]

theorem FS.find_insert (fs : FS) (p q : List String) (n : Node) :
    FS.find (FS.insert fs p n) q = if q = p then some n else FS.find fs q := by
  unfold FS.insert
  simp only [FS.find]
  rw [FS.find_eraseKey]
  by_cases hq : q = p
  · simp [hq]
  · rw [if_neg (fun h => hq (h.symm)), if_neg hq, if_neg hq]

theorem resPath_insert_fresh (fs : FS) (k : List String) (nd : Node)
    (hk : FS.find fs k = none) :
    ∀ (fuel : Nat) (acc p r : List String),
      resPath fs fuel acc p = some r → resPath (FS.insert fs k nd) fuel acc p = some r := by
  intro fuel
  induction fuel with
  | zero => intro acc p r h; cases h
  | succ f ih =>
    intro acc p r h
    cases p with
    | nil =>
      simp only [resPath] at h ⊢
      exact h
    | cons c rest =>
      rw [resPath] at h ⊢
      cases hf : FS.find fs (acc ++ [c]) with
      | none => rw [hf] at h; simp at h
      | some v =>
        have hne : ¬ (acc ++ [c] = k) := by
          intro he; rw [he, hk] at hf; cases hf
        rw [FS.find_insert, if_neg hne, hf]
        rw [hf] at h
        cases v with
        | dir => exact ih _ _ _ h
        | symlink tg => exact ih _ _ _ h
        | file sz mt => exact h
        | inaccessible => simp at h

theorem resolve_insert_fresh (fs : FS) (k : List String) (nd : Node)
    (hk : FS.find fs k = none) (p rp : List String) (h : resolve fs p = some rp) :
    resolve (FS.insert fs k nd) p = some rp :=
  resPath_insert_fresh fs k nd hk 64 [] p rp h

theorem read_link_of_is_symlink (fs : FS) (p : List String) (h : is_symlink fs p = 0) :
    ∃ u, read_link fs p = some u := by
  unfold is_symlink at h
  unfold read_link
  cases hl : lstatNode fs p with
  | none => rw [hl] at h; simp at h
  | some n =>
    rw [hl] at h
    cases n with
    | dir => simp at h
    | file sz mt => simp at h
    | symlink u => exact ⟨u, rfl⟩
    | inaccessible => simp at h

theorem createSymlinkOp_some (fs : FS) (t p : List String) (fs2 : FS)
    (h : createSymlinkOp fs t p = some fs2) :
    ∃ pp n, p.getLast? = some n ∧ resolve fs p.dropLast = some pp
      ∧ FS.find fs (pp ++ [n]) = none
      ∧ fs2 = FS.insert fs (pp ++ [n]) (Node.symlink t) := by
  unfold createSymlinkOp at h
  cases hl : p.getLast? with
  | none => rw [hl] at h; simp at h
  | some n =>
    simp only [hl] at h
    cases hr : resolve fs p.dropLast with
    | none => simp only [hr] at h; simp at h
    | some pp =>
      simp only [hr] at h
      by_cases hd : parentIsDir fs pp = true
      · rw [if_pos hd] at h
        cases hf : FS.find fs (pp ++ [n]) with
        | none =>
          simp only [hf] at h
          exact ⟨pp, n, rfl, rfl, hf, (Option.some.inj h).symm⟩
        | some m => simp only [hf] at h; simp at h
      · rw [if_neg hd] at h; simp at h

/-- In non-dry mode, `copy_file` on a symlink-classified source with stored
target `t` mutates nothing except possibly installing the node
`Node.symlink t` at one path, and when it does not panic, it has installed
exactly that node at the destination's resolved location. -/
theorem copy_file_symlink_spec (now : Nat) (src dst : List String) (s : RunSt)
    (t : List String)
    (h0 : is_symlink s.fs src = 0) (ht : read_link s.fs src = some t) :
    (∀ q, FS.find (copy_file now src dst false s).fs q = FS.find s.fs q
        ∨ FS.find (copy_file now src dst false s).fs q = some (Node.symlink t))
    ∧ ((copy_file now src dst false s).panicked = false →
        ∃ pp n, dst.getLast? = some n ∧ resolve s.fs dst.dropLast = some pp
          ∧ FS.find s.fs (pp ++ [n]) = none
          ∧ (copy_file now src dst false s).fs
              = FS.insert s.fs (pp ++ [n]) (Node.symlink t)) := by
  cases hc : createSymlinkOp s.fs t dst with
  | none =>
    have hres : copy_file now src dst false s
        = (s.out ("Copying " ++ pathStr src ++ " to " ++ pathStr dst)).crash := by
      unfold copy_file
      simp [RunSt.out, h0, ht, hc]
    constructor
    · intro q; left; rw [hres]; rfl
    · intro hpan; rw [hres] at hpan; simp [RunSt.out, RunSt.crash] at hpan
  | some fs2 =>
    obtain ⟨pp, n, hg, hrp, hfree, hfs2⟩ := createSymlinkOp_some s.fs t dst fs2 hc
    have hres : (copy_file now src dst false s).fs = fs2
        ∧ (copy_file now src dst false s).panicked = s.panicked := by
      unfold copy_file
      simp [RunSt.out, h0, ht, hc]
    constructor
    · intro q
      rw [hres.1, hfs2, FS.find_insert]
      by_cases hq : q = pp ++ [n]
      · right; rw [if_pos hq]
      · left; rw [if_neg hq]
    · intro _
      exact ⟨pp, n, hg, hrp, hfree, by rw [hres.1]; exact hfs2⟩

/-- C4 (amended): for every state in which the symlink inspector classifies
the source entry as a symlink with stored target `t` and `buNonDir` (the
mirror's per-entry handler, src/main.rs lines 138-151) runs in non-dry mode:
(1) no path of the filesystem changes except possibly to the node
`Node.symlink t` — so the referent's bytes are never copied anywhere — and
(2) whenever the handling completes without panicking, the destination entry
at the same relative path reads back as a symlink whose stored target is
exactly `t`, verbatim.  (A source symlink that resolves to a directory never
reaches this handler: `backup` treats it as a directory and copies the
referent's contents, as `c4_counterexample` shows.) -/
theorem c4_symlink_mirror_fidelity
    (now : Nat) (source destination : List String) (name : String) (s : RunSt)
    (t : List String)
    (h0 : is_symlink s.fs (source ++ [name]) = 0)
    (ht : read_link s.fs (source ++ [name]) = some t) :
    (∀ q, FS.find (buNonDir now source destination name false s).fs q
            = FS.find s.fs q
        ∨ FS.find (buNonDir now source destination name false s).fs q
            = some (Node.symlink t))
    ∧ ((buNonDir now source destination name false s).panicked = false →
        read_link (buNonDir now source destination name false s).fs
            (destination ++ [name]) = some t) := by
  have hbu : (buNonDir now source destination name false s = s
        ∧ read_link s.fs (destination ++ [name]) = some t)
      ∨ buNonDir now source destination name false s
          = copy_file now (source ++ [name]) (destination ++ [name]) false s := by
    unfold buNonDir
    by_cases hd : is_symlink s.fs (destination ++ [name]) = 0
    · obtain ⟨dt, hdt⟩ := read_link_of_is_symlink s.fs (destination ++ [name]) hd
      by_cases he : t = dt
      · left
        constructor
        · simp [h0, hd, ht, hdt, he]
        · rw [hdt, he]
      · right
        simp [h0, hd, ht, hdt, he]
    · right
      simp [h0, hd, ht]
  rcases hbu with ⟨hs, hrl⟩ | hc
  · constructor
    · intro q; left; rw [hs]
    · intro _; rw [hs]; exact hrl
  · obtain ⟨hfind, hsucc⟩ :=
      copy_file_symlink_spec now (source ++ [name]) (destination ++ [name]) s t h0 ht
    constructor
    · intro q; rw [hc]; exact hfind q
    · intro hpan
      rw [hc] at hpan ⊢
      obtain ⟨pp, n, hg, hrp, hfree, hfs⟩ := hsucc hpan
      have hg2 : (destination ++ [name]).getLast? = some name := by simp
      have hn : name = n := by
        rw [hg2] at hg
        exact Option.some.inj hg
      subst hn
      have hdl : (destination ++ [name]).dropLast = destination := by simp
      rw [hdl] at hrp
      have hr2 : resolve (FS.insert s.fs (pp ++ [name]) (Node.symlink t)) destination
          = some pp :=
        resolve_insert_fresh s.fs (pp ++ [name]) (Node.symlink t) hfree destination pp hrp
      rw [hfs]
      simp [read_link, lstatNode, hg2, hdl, hr2, FS.find_insert]

/-- Witness for C4 on `fsC4b`: a dangling source symlink `s/link -> tgt`
with no referent at all; the handler succeeds and the destination holds the
symlink with the verbatim target. -/
theorem c4_witness :
    is_symlink (fsC4b : FS) (["s"] ++ ["link"]) = 0
    ∧ read_link (fsC4b : FS) (["s"] ++ ["link"]) = some ["tgt"]
    ∧ (FS.find (buNonDir 0 ["s"] ["d"] "link" false
            { fs := fsC4b, log := [], panicked := false }).fs (["d"] ++ ["link"])
          = FS.find (fsC4b : FS) (["d"] ++ ["link"])
       ∨ FS.find (buNonDir 0 ["s"] ["d"] "link" false
            { fs := fsC4b, log := [], panicked := false }).fs (["d"] ++ ["link"])
          = some (Node.symlink ["tgt"]))
    ∧ read_link (buNonDir 0 ["s"] ["d"] "link" false
          { fs := fsC4b, log := [], panicked := false }).fs (["d"] ++ ["link"])
        = some ["tgt"] :=
  ⟨by decide, by decide,
   (c4_symlink_mirror_fidelity 0 ["s"] ["d"] "link"
      { fs := fsC4b, log := [], panicked := false } ["tgt"]
      (by decide) (by decide)).1 (["d"] ++ ["link"]),
   (c4_symlink_mirror_fidelity 0 ["s"] ["d"] "link"
      { fs := fsC4b, log := [], panicked := false } ["tgt"]
      (by decide) (by decide)).2 (by decide)⟩

/-- A destination entry `d/x` whose lstat fails (vanished after listing);
the source has no entry at `x`. -/
def fsC5 : FS := [(["s"], Node.dir), (["d"], Node.dir), (["d","x"], Node.inaccessible)]

/-- C5 counterexample: on `fsC5` the prune pass meets a destination entry the
symlink inspector classifies INACCESSIBLE (code 2); instead of skipping it,
the run logs a file removal and then panics when the removal fails — the
entry is treated as a confirmed non-symlink and the run crashes on it. -/
theorem c5_counterexample :
    (mainRun 0 4 ["s"] ["d"] false fsC5).panicked = true
    ∧ (mainRun 0 4 ["s"] ["d"] false fsC5).log = ["Removing file: d/x"] := by
  decide

/-- C5 (amended): the prune pass has no INACCESSIBLE branch — `rrNonDir`
(src/main.rs lines 63-80) tests only `is_symlink == 0`, so an entry with
inspector code 2 takes the same branch as a confirmed non-symlink: it is
left untouched when the equivalent source path exists, and otherwise a file
removal is logged and attempted, panicking the (non-dry) run when the
removal fails. -/
theorem c5_inaccessible_as_nonsymlink
    (source destination : List String) (name : String) (s : RunSt)
    (h : is_symlink s.fs (destination ++ [name]) = 2) :
    (pathExists s.fs (source ++ [name]) = true →
        rrNonDir source destination name false s = s)
    ∧ (pathExists s.fs (source ++ [name]) = false →
        removeFileOp s.fs (destination ++ [name]) = none →
        rrNonDir source destination name false s
          = (s.out ("Removing file: " ++ pathStr (destination ++ [name]))).crash) := by
  unfold rrNonDir
  rw [h]
  constructor
  · intro hex
    simp [hex]
  · intro hex hrm
    simp [hex, hrm, RunSt.out, RunSt.crash]

/-- Witness for C5 at the concrete filesystem `fsC5`. -/
theorem c5_witness :
    is_symlink (fsC5 : FS) (["d"] ++ ["x"]) = 2
    ∧ rrNonDir ["s"] ["d"] "x" false { fs := fsC5, log := [], panicked := false }
        = (({ fs := fsC5, log := [], panicked := false } : RunSt).out
            ("Removing file: " ++ pathStr (["d"] ++ ["x"]))).crash := by
  constructor
  · decide
  · exact (c5_inaccessible_as_nonsymlink ["s"] ["d"] "x"
      { fs := fsC5, log := [], panicked := false } (by decide)).2 (by decide) (by decide)

theorem readDir_none_of_not_isDir (fs : FS) (p : List String) (h : isDir fs p = false) :
    readDir fs p = none := by
  unfold isDir resolveNode at h
  unfold readDir
  cases hres : resolve fs p with
  | none => rfl
  | some rp =>
    rw [hres] at h
    have h2 : (match FS.find fs rp with
        | some Node.dir => true
        | _ => false) = false := h
    show (match FS.find fs rp with
        | some Node.dir => some (childNames fs rp)
        | _ => none) = none
    cases hfind : FS.find fs rp with
    | none => rfl
    | some n =>
      rw [hfind] at h2
      cases n with
      | dir => simp at h2
      | file sz mt => rfl
      | symlink t => rfl
      | inaccessible => rfl

/-- A destination with one file `d/b`; the source root `s` does not exist. -/
def fsC6 : FS := [(["d"], Node.dir), (["d","b"], Node.file 1 0)]

/-- C6 (amended): when the source path is not (a resolvable) directory, the
mirror pass is indeed a soft no-op (its `read_dir` match returns silently),
but the prune pass is not: it still walks the destination and, the source
being absent, deletes the destination's entries — on `fsC6` a run with the
nonexistent source `s` removes `d/b`, logging the removal, without
crashing. -/
theorem c6_missing_source_behavior
    (now fuel : Nat) (source destination : List String) (dry : Bool) (fs : FS)
    (l : List String) (h : isDir fs source = false) :
    backup now (fuel+1) source destination dry { fs := fs, log := l, panicked := false }
      = { fs := fs, log := l, panicked := false }
    ∧ FS.find (mainRun 7 3 ["s"] ["d"] false fsC6).fs ["d","b"] = none
    ∧ (mainRun 7 3 ["s"] ["d"] false fsC6).log = ["Removing file: d/b"]
    ∧ (mainRun 7 3 ["s"] ["d"] false fsC6).panicked = false := by
  refine ⟨?_, by decide, by decide, by decide⟩
  have hrd : readDir fs source = none := readDir_none_of_not_isDir fs source h
  rw [backup]
  simp only [hrd]

/-- C6 counterexample: on `fsC6` (source missing entirely) the prune pass is
not a no-op: the destination entry `d/b`, present before the run, is
deleted. -/
theorem c6_counterexample :
    FS.find fsC6 ["d","b"] = some (Node.file 1 0)
    ∧ FS.find (mainRun 7 3 ["s"] ["d"] false fsC6).fs ["d","b"] = none := by
  decide

/-- Witness for C6 with the empty filesystem as the general instance. -/
theorem c6_witness :
    isDir ([] : FS) ["s"] = false
    ∧ backup 0 (0+1) ["s"] ["d"] false { fs := [], log := [], panicked := false }
        = { fs := [], log := [], panicked := false } :=
  ⟨by decide, (c6_missing_source_behavior 0 0 ["s"] ["d"] false [] [] (by decide)).1⟩

/-- A source whose entry `x` is inaccessible (metadata reads fail), followed
by a healthy sibling `y`. -/
def fsC7 : FS :=
  [(["s"], Node.dir), (["d"], Node.dir),
   (["s","x"], Node.inaccessible), (["s","y"], Node.file 1 0)]

/-- C7 counterexample: on `fsC7` the per-entry failure on `x` (its copy's
source open fails) panics the whole run: the sibling `y` is never visited —
no log line for it and no `d/y` in the destination — so the error propagates
past the enclosing directory's iteration instead of being skipped. -/
theorem c7_counterexample :
    (mainRun 0 4 ["s"] ["d"] false fsC7).panicked = true
    ∧ (mainRun 0 4 ["s"] ["d"] false fsC7).log = ["Copying s/x to d/x"]
    ∧ FS.find (mainRun 0 4 ["s"] ["d"] false fsC7).fs ["d","y"] = none := by
  decide

/-- C7 (amended): a per-entry filesystem failure is an `.unwrap()` panic
that aborts the entire run: the panicked state is absorbing for both passes,
so no sibling entry or subtree is ever traversed afterwards.  (The only
soft-skipped failure is a source directory that cannot be listed at the top
of a `backup` call, which returns silently.) -/
theorem c7_panic_aborts_run (now fuel : Nat) (source destination : List String)
    (dry : Bool) (s : RunSt) (h : s.panicked = true) :
    remove_removed fuel source destination dry s = s
    ∧ backup now fuel source destination dry s = s :=
  ⟨remove_removed_absorb fuel source destination dry s h,
   backup_absorb now fuel source destination dry s h⟩

/-- Witness for C7 at a concrete panicked state. -/
theorem c7_witness :
    ({ fs := [], log := [], panicked := true } : RunSt).panicked = true
    ∧ (remove_removed 2 ["a"] ["b"] false { fs := [], log := [], panicked := true }
          = { fs := [], log := [], panicked := true }
       ∧ backup 0 2 ["a"] ["b"] false { fs := [], log := [], panicked := true }
          = { fs := [], log := [], panicked := true }) :=
  ⟨rfl, c7_panic_aborts_run 0 2 ["a"] ["b"] false
    { fs := [], log := [], panicked := true } rfl⟩

/-- Source holds a directory `x` (containing `f`); destination holds a
regular file at the same relative path `x`. -/
def fsC8 : FS :=
  [(["s"], Node.dir), (["d"], Node.dir), (["s","x"], Node.dir),
   (["s","x","f"], Node.file 2 5), (["d","x"], Node.file 9 1)]

/-- C8 counterexample: on `fsC8` the destination file `d/x` is absent from
SOURCE as a file, but SOURCE has a same-named directory; the prune pass's
bare `Path::exists` check (src/main.rs line 74) is satisfied by the
directory, so the old file is never removed — it is still present after the
run, and the mirror pass panics trying to copy `s/x/f` into it. -/
theorem c8_counterexample :
    FS.find (mainRun 0 5 ["s"] ["d"] false fsC8).fs ["d","x"] = some (Node.file 9 1)
    ∧ (mainRun 0 5 ["s"] ["d"] false fsC8).panicked = true := by
  decide

/-- C8 (amended): the prune pass's existence check is kind-blind — a
destination non-directory entry is removed exactly when nothing of any kind
exists at the equivalent source path; when a same-named source entry of any
kind (even a directory) exists, the destination entry is left in place, and
the mirror pass then panics attempting to copy onto or into it. -/
theorem c8_prune_kind_blind
    (source destination : List String) (name : String) (s : RunSt) (fs2 : FS)
    (h1 : is_symlink s.fs (destination ++ [name]) = 1) :
    (pathExists s.fs (source ++ [name]) = true →
        rrNonDir source destination name false s = s)
    ∧ (pathExists s.fs (source ++ [name]) = false →
        removeFileOp s.fs (destination ++ [name]) = some fs2 →
        rrNonDir source destination name false s
          = { fs := fs2,
              log := s.log ++ [("Removing file: " ++ pathStr (destination ++ [name]))],
              panicked := s.panicked }) := by
  unfold rrNonDir
  rw [h1]
  constructor
  · intro hex
    simp [hex]
  · intro hex hrm
    simp [hex, hrm, RunSt.out]

/-- Witness for C8: the destination file `d/x` with no source entry at `x`
is removed by `rrNonDir`. -/
theorem c8_witness :
    is_symlink (([(["d"], Node.dir), (["s"], Node.dir), (["d","x"], Node.file 1 0)] : FS))
        (["d"] ++ ["x"]) = 1
    ∧ rrNonDir ["s"] ["d"] "x" false
        { fs := [(["d"], Node.dir), (["s"], Node.dir), (["d","x"], Node.file 1 0)],
          log := [], panicked := false }
      = { fs := [(["d"], Node.dir), (["s"], Node.dir)],
          log := [("Removing file: " ++ pathStr (["d"] ++ ["x"]))],
          panicked := false } :=
  ⟨by decide, (c8_prune_kind_blind ["s"] ["d"] "x"
      { fs := [(["d"], Node.dir), (["s"], Node.dir), (["d","x"], Node.file 1 0)],
        log := [], panicked := false }
      [(["d"], Node.dir), (["s"], Node.dir)] (by decide)).2 (by decide) (by decide)⟩

/-- The spec's concrete scenario: SOURCE `a.txt` (5 bytes, mtime 100);
DESTINATION `a.txt` (5 bytes, mtime 50) and `b.txt`. -/
def fsC9 : FS :=
  [(["s"], Node.dir), (["d"], Node.dir),
   (["s","a.txt"], Node.file 5 100), (["d","a.txt"], Node.file 5 50),
   (["d","b.txt"], Node.file 7 3)]

/-- C9 counterexample: on `fsC9` the run emits a copy line and overwrites
`a.txt` (the destination file's mtime becomes the run's wall-clock 777),
because equal sizes with source mtime 100 > destination mtime 50 make the
file STALE — contradicting "a.txt untouched, zero copy lines". -/
theorem c9_counterexample :
    (mainRun 777 4 ["s"] ["d"] false fsC9).log
      = ["Removing file: d/b.txt", "Copying s/a.txt to d/a.txt"]
    ∧ FS.find (mainRun 777 4 ["s"] ["d"] false fsC9).fs ["d","a.txt"]
        = some (Node.file 5 777) := by
  decide

/-- C9 (amended): on the spec's scenario the run removes `b.txt` (logging
"Removing file: .../b.txt") and, since the sizes are equal and the source's
mtime 100 is strictly greater than the destination's 50, overwrites `a.txt`,
emitting exactly one copy line; the run completes without panicking. -/
theorem c9_scenario_behavior :
    FS.find (mainRun 777 4 ["s"] ["d"] false fsC9).fs ["d","b.txt"] = none
    ∧ (mainRun 777 4 ["s"] ["d"] false fsC9).log
        = ["Removing file: d/b.txt", "Copying s/a.txt to d/a.txt"]
    ∧ (mainRun 777 4 ["s"] ["d"] false fsC9).panicked = false := by
  decide

/-- C10: with dry-run enabled, `main` skips creating the destination
directory; when the destination path does not exist, the prune pass's
`fs::read_dir(destination).unwrap()` then panics immediately: the run panics
with the filesystem untouched and no log lines, instead of simulating. -/
theorem c10_dry_run_missing_destination
    (now fuel : Nat) (source destination : List String) (fs : FS)
    (h : pathExists fs destination = false) :
    (mainRun now (fuel+1) source destination true fs).panicked = true
    ∧ (mainRun now (fuel+1) source destination true fs).fs = fs
    ∧ (mainRun now (fuel+1) source destination true fs).log = [] := by
  have hres : resolve fs destination = none := by
    unfold pathExists at h
    cases hr : resolve fs destination with
    | none => rfl
    | some rp => rw [hr] at h; cases h
  have hrd : readDir fs destination = none := by
    unfold readDir; rw [hres]
  have hrr : remove_removed (fuel+1) source destination true
      { fs := fs, log := [], panicked := false }
      = ({ fs := fs, log := [], panicked := false } : RunSt).crash := by
    rw [remove_removed]
    simp only [hrd]
  refine ⟨?_, ?_, ?_⟩ <;>
  · unfold mainRun
    simp [hrr, RunSt.crash]

/-- Witness for C10: destination `nope` does not exist in a filesystem
holding only the source root. -/
theorem c10_witness :
    pathExists (([(["s"], Node.dir)] : FS)) ["nope"] = false
    ∧ ((mainRun 0 3 ["s"] ["nope"] true [(["s"], Node.dir)]).panicked = true
       ∧ (mainRun 0 3 ["s"] ["nope"] true [(["s"], Node.dir)]).fs = [(["s"], Node.dir)]
       ∧ (mainRun 0 3 ["s"] ["nope"] true [(["s"], Node.dir)]).log = []) :=
  ⟨by decide, c10_dry_run_missing_destination 0 2 ["s"] ["nope"] [(["s"], Node.dir)] (by decide)⟩
